import Mathlib

/-!
Shallow embedding of the task-tracking HTTP service in `src/bellglen.py`.

The Python program keeps a single in-memory list of task dicts and exposes
CRUD handlers in two families: v1 (open) and v2 (gated by an API-key header).
Global mutable state is modelled by explicit state passing: every handler
takes the current store and returns the response together with the store it
leaves behind.  `HTTPException` raised by a handler is modelled as the
`Except.error` branch; the FastAPI/pydantic request validation for the create
body (`NewTask`, Title with min_length 1) is modelled by `parse_new_task`,
which performs the 422 schema rejection before the handler body runs.
-/

namespace BellGlen

/-- A task record: `{"Id": ..., "Title": ..., "Description": ..., "done": ...}`.
`Description` is optional (`None` in Python is `none` here); `Id` is a Python
int, modelled as `Int`. -/
structure Task where
  Id : Int
  Title : String
  Description : Option String
  done : Bool
deriving Repr, DecidableEq

/-- The store is the ordered in-memory list `tasks_data`. -/
abbrev Store := List Task

/-- The initial contents of `tasks_data` (line 25 of the source). -/
def tasks_data : Store :=
  [⟨1, "Complete Lab Activity", some "Finish Lab Activity 2", false⟩]

/-- Request body for creating a task (`class NewTask`), after pydantic
validation succeeded: Title non-empty, Description optional, done defaulted. -/
structure NewTask where
  Title : String
  Description : Option String
  done : Bool
deriving Repr, DecidableEq

/-- Request body for updating a task (`class UpdateTask`): every field
optional; an absent field is `none`. -/
structure UpdateTask where
  Title : Option String
  Description : Option String
  done : Option Bool
deriving Repr, DecidableEq

/-- An `HTTPException(status_code, detail)`. -/
structure HTTPException where
  status_code : Int
  detail : String
deriving Repr, DecidableEq

/-- The JSON bodies the handlers return on success. -/
inductive Resp where
  | getResp (status : String) (task : Task)
  | createResp (status : String) (task : Task)
  | msgResp (status : String) (msg : String)
deriving Repr, DecidableEq

/-- The detail string of the 400 error for a non-positive id. -/
def invalid_id_msg : String := "Task ID must be a positive integer"

/-- The detail string of the 404 error. -/
def not_found_msg (task_id : Int) : String :=
  s!"Task with ID {task_id} not found"

/-- The message returned by a successful delete. -/
def deleted_msg (task_id : Int) : String :=
  s!"Task with ID {task_id} deleted"

/-- `get_task_by_id`: linear scan, first task whose Id matches, else `None`. -/
def get_task_by_id (task_id : Int) (s : Store) : Option Task :=
  s.find? (fun t => t.Id == task_id)

/-- `validate_api_key`: the v2 dependency.  `api_key` is the value of the
`GLEN_LAB4_api_key` header (`none` when the header is absent, since the
header object has auto_error=False); `cfg` is `API_KEY = os.getenv(...)`
(`none` when the environment variable is unset).  Raises 401 iff the two
differ. -/
def validate_api_key (api_key : Option String) (cfg : Option String) :
    Except HTTPException Unit :=
  if api_key ≠ cfg then .error ⟨401, "Unauthorized"⟩ else .ok ()

/-- `read_task_v1`: GET /v1/tasks/\x7btask_id\x7d. -/
def read_task_v1 (task_id : Int) (s : Store) :
    Except HTTPException Resp × Store :=
  if task_id ≤ 0 then (.error ⟨400, invalid_id_msg⟩, s)
  else
    match get_task_by_id task_id s with
    | none => (.error ⟨404, not_found_msg task_id⟩, s)
    | some task => (.ok (.getResp "Success" task), s)

/-- `add_task_v1`: the handler body (after validation): assigns
`new_id = len(tasks_data) + 1`, appends, returns the created record. -/
def add_task_v1 (new_task : NewTask) (s : Store) : Resp × Store :=
  let new_id : Int := (s.length : Int) + 1
  let task_to_add : Task := ⟨new_id, new_task.Title, new_task.Description, new_task.done⟩
  (.createResp "Success" task_to_add, s ++ [task_to_add])

/-- Pydantic validation of the POST body: `Title` is required with
min_length 1 (422 on violation), `Description` defaults to `None`, `done`
defaults to `False`. -/
def parse_new_task (title : Option String) (descr : Option String) (d : Option Bool) :
    Except HTTPException NewTask :=
  match title with
  | none => .error ⟨422, "ValidationError"⟩
  | some ttl =>
      if ttl.length < 1 then .error ⟨422, "ValidationError"⟩
      else .ok ⟨ttl, descr, d.getD false⟩

/-- POST /v1/tasks: framework validation followed by `add_task_v1`. -/
def post_task_v1 (title : Option String) (descr : Option String) (d : Option Bool)
    (s : Store) : Except HTTPException Resp × Store :=
  match parse_new_task title descr d with
  | .error e => (.error e, s)
  | .ok nt =>
      match add_task_v1 nt s with
      | (r, s2) => (.ok r, s2)

/-- The in-place mutation of the found dict in `modify_task_v1`: each field
present in the body overwrites the stored one; absent fields are untouched. -/
def apply_update (u : UpdateTask) (t : Task) : Task :=
  ⟨t.Id,
   match u.Title with | some ttl => ttl | none => t.Title,
   match u.Description with | some d => some d | none => t.Description,
   match u.done with | some b => b | none => t.done⟩

/-- Mutating the first task whose Id matches, as the handler does through the
dict reference returned by `get_task_by_id`. -/
def update_first (task_id : Int) (u : UpdateTask) : Store → Store
  | [] => []
  | t :: ts =>
      if t.Id == task_id then apply_update u t :: ts
      else t :: update_first task_id u ts

/-- `modify_task_v1`: PATCH /v1/tasks/\x7btask_id\x7d. -/
def modify_task_v1 (task_id : Int) (updated_task : UpdateTask) (s : Store) :
    Except HTTPException Resp × Store :=
  if task_id ≤ 0 then (.error ⟨400, invalid_id_msg⟩, s)
  else
    match get_task_by_id task_id s with
    | none => (.error ⟨404, not_found_msg task_id⟩, s)
    | some _ =>
        (.ok (.msgResp "Success" "Task Updated Successfully"),
         update_first task_id updated_task s)

/-- Python `list.remove(x)`: delete the first element equal to `x`. -/
def py_remove (x : Task) : Store → Store
  | [] => []
  | t :: ts => if t = x then ts else t :: py_remove x ts

/-- `remove_task_v1`: DELETE /v1/tasks/\x7btask_id\x7d. -/
def remove_task_v1 (task_id : Int) (s : Store) :
    Except HTTPException Resp × Store :=
  if task_id ≤ 0 then (.error ⟨400, invalid_id_msg⟩, s)
  else
    match get_task_by_id task_id s with
    | none => (.error ⟨404, not_found_msg task_id⟩, s)
    | some task =>
        (.ok (.msgResp "Success" (deleted_msg task_id)), py_remove task s)

/-- GET /v2/tasks/\x7btask_id\x7d: the auth dependency runs first, then the
handler delegates to `read_task_v1`. -/
def read_task_v2 (api_key cfg : Option String) (task_id : Int) (s : Store) :
    Except HTTPException Resp × Store :=
  match validate_api_key api_key cfg with
  | .error e => (.error e, s)
  | .ok _ => read_task_v1 task_id s

/-- POST /v2/tasks: auth gate, then the v1 logic. -/
def post_task_v2 (api_key cfg : Option String) (title descr : Option String)
    (d : Option Bool) (s : Store) : Except HTTPException Resp × Store :=
  match validate_api_key api_key cfg with
  | .error e => (.error e, s)
  | .ok _ => post_task_v1 title descr d s

/-- PATCH /v2/tasks/\x7btask_id\x7d: auth gate, then the v1 logic. -/
def modify_task_v2 (api_key cfg : Option String) (task_id : Int)
    (updated_task : UpdateTask) (s : Store) : Except HTTPException Resp × Store :=
  match validate_api_key api_key cfg with
  | .error e => (.error e, s)
  | .ok _ => modify_task_v1 task_id updated_task s

/-- DELETE /v2/tasks/\x7btask_id\x7d: auth gate, then the v1 logic. -/
def remove_task_v2 (api_key cfg : Option String) (task_id : Int) (s : Store) :
    Except HTTPException Resp × Store :=
  match validate_api_key api_key cfg with
  | .error e => (.error e, s)
  | .ok _ => remove_task_v1 task_id s

/-- Whether a handler result is a success (no exception raised). -/
def is_ok {α : Type} : Except HTTPException α → Bool
  | .ok _ => true
  | .error _ => false

/-- One client request against the v1 surface (only the store-changing part
matters for reachability; GET never mutates). -/
inductive Op where
  | create (title : Option String) (descr : Option String) (d : Option Bool)
  | update (task_id : Int) (u : UpdateTask)
  | del (task_id : Int)

/-- The store left behind by one request. -/
def step (s : Store) : Op → Store
  | .create title descr d => (post_task_v1 title descr d s).2
  | .update task_id u => (modify_task_v1 task_id u s).2
  | .del task_id => (remove_task_v1 task_id s).2

/-- Store states reachable from the initial `tasks_data` by any sequence of
requests (single-threaded). -/
inductive Reachable : Store → Prop where
  | init : Reachable tasks_data
  | next (s : Store) (op : Op) : Reachable s → Reachable (step s op)

/-- Store states reachable using only create and update requests (no
delete). -/
inductive ReachableND : Store → Prop where
  | init : ReachableND tasks_data
  | create (s : Store) (title descr : Option String) (d : Option Bool) :
      ReachableND s → ReachableND (step s (.create title descr d))
  | update (s : Store) (task_id : Int) (u : UpdateTask) :
      ReachableND s → ReachableND (step s (.update task_id u))

/-! ### Generic lemmas about the store operations -/

theorem apply_update_Id (u : UpdateTask) (t : Task) :
    (apply_update u t).Id = t.Id := rfl

theorem map_Id_update_first (task_id : Int) (u : UpdateTask) (s : Store) :
    (update_first task_id u s).map Task.Id = s.map Task.Id := by
  induction s with
  | nil => rfl
  | cons t ts ih =>
      by_cases h : t.Id == task_id
      · simp [update_first, h, apply_update_Id]
      · simp [update_first, h, ih]

/-- The Ids 1, 2, ..., n, as the id sequence of a delete-free store. -/
def succ_ids : Nat → List Int
  | 0 => []
  | n + 1 => succ_ids n ++ [(n : Int) + 1]

theorem succ_ids_mem_le (n : Nat) (x : Int) (hx : x ∈ succ_ids n) : x ≤ (n : Int) := by
  induction n with
  | zero => cases hx
  | succ m ih =>
      rcases List.mem_append.mp hx with hx | hx
      · have := ih hx
        omega
      · have hx' : x = (m : Int) + 1 := List.mem_singleton.mp hx
        omega

theorem succ_ids_nodup (n : Nat) : (succ_ids n).Nodup := by
  induction n with
  | zero => exact List.nodup_nil
  | succ m ih =>
      refine List.Nodup.append ih (List.nodup_singleton _) ?_
      intro a ha hb
      have hb' : a = (m : Int) + 1 := List.mem_singleton.mp hb
      have ha' := succ_ids_mem_le m a ha
      omega

/-- The id sequence of a store in which no delete has ever happened: the k-th
task carries Id k+1. -/
def ids_consecutive (s : Store) : Prop :=
  s.map Task.Id = succ_ids s.length

theorem ids_consecutive_create (s : Store) (title descr : Option String)
    (d : Option Bool) (h : ids_consecutive s) :
    ids_consecutive (step s (.create title descr d)) := by
  show ids_consecutive (post_task_v1 title descr d s).2
  unfold post_task_v1
  cases hp : parse_new_task title descr d with
  | error e => exact h
  | ok nt =>
      show ids_consecutive (s ++ [⟨(s.length : Int) + 1, nt.Title, nt.Description, nt.done⟩])
      unfold ids_consecutive at h ⊢
      rw [List.map_append, h, List.length_append]
      simp [succ_ids]

theorem ids_consecutive_update (s : Store) (task_id : Int) (u : UpdateTask)
    (h : ids_consecutive s) :
    ids_consecutive (step s (.update task_id u)) := by
  show ids_consecutive (modify_task_v1 task_id u s).2
  unfold modify_task_v1
  by_cases h0 : task_id ≤ 0
  · simp only [h0, if_true]
    exact h
  · simp only [h0, if_false]
    cases hf : get_task_by_id task_id s with
    | none => exact h
    | some t =>
        show ids_consecutive (update_first task_id u s)
        have hlen : (update_first task_id u s).length = s.length := by
          have := congrArg List.length (map_Id_update_first task_id u s)
          simpa using this
        unfold ids_consecutive at h ⊢
        rw [map_Id_update_first, hlen, h]

theorem ids_consecutive_nodup (s : Store) (h : ids_consecutive s) :
    (s.map Task.Id).Nodup := by
  rw [h]
  exact succ_ids_nodup s.length

theorem reachableND_ids_consecutive (s : Store) (h : ReachableND s) :
    ids_consecutive s := by
  induction h with
  | init => exact (by decide : List.map Task.Id tasks_data = succ_ids tasks_data.length)
  | create s title descr d _ ih => exact ids_consecutive_create s title descr d ih
  | update s task_id u _ ih => exact ids_consecutive_update s task_id u ih

/-! ### C1: uniqueness of Ids over reachable states -/

/-- A reachable store with a duplicated Id: create, delete the first task,
create again.  The second create reuses Id 2 because the store shrank. -/
def dup_store : Store :=
  step (step (step tasks_data (.create (some "A") none none)) (.del 1))
    (.create (some "B") none none)

/-- C1 (counterexample): the store reached by CreateTask, DeleteTask(1),
CreateTask from the initial store holds two tasks both carrying Id 2, so Ids
are not pairwise distinct in every reachable state. -/
theorem C1_counterexample :
    Reachable dup_store ∧ ¬ (dup_store.map Task.Id).Nodup := by
  constructor
  · show Reachable (step (step (step tasks_data _) _) _)
    exact .next _ _ (.next _ _ (.next _ _ .init))
  · decide

/-- C1 (amended): starting from the initial one-task store, after any
sequence of CreateTask and UpdateTask operations (no DeleteTask), all task
Ids in the store are pairwise distinct; a DeleteTask followed by a later
CreateTask can break this, as Id assignment is current count + 1. -/
theorem C1_ids_nodup (s : Store) (h : ReachableND s) :
    (s.map Task.Id).Nodup :=
  ids_consecutive_nodup s (reachableND_ids_consecutive s h)

/-- C1 witness: a concrete no-delete run (initial store plus one create) has
pairwise distinct Ids. -/
theorem C1_ids_nodup_witness :
    ((step tasks_data (.create (some "A") none none)).map Task.Id).Nodup :=
  C1_ids_nodup _ (.create _ _ _ _ .init)

/-! ### C6: non-positive ids are rejected before any lookup -/

/-- C6 (confirmed): for every id ≤ 0 and every store, GetTask, UpdateTask and
DeleteTask all fail with InvalidArgument (400) and leave the store unchanged,
regardless of the store contents (so the check precedes any lookup); in
particular GetTask(0) and GetTask(-5) yield the 400 error, never 404. -/
theorem C6_nonpos_id_invalid (s : Store) (task_id : Int) (u : UpdateTask)
    (h : task_id ≤ 0) :
    read_task_v1 task_id s = (.error ⟨400, invalid_id_msg⟩, s) ∧
    modify_task_v1 task_id u s = (.error ⟨400, invalid_id_msg⟩, s) ∧
    remove_task_v1 task_id s = (.error ⟨400, invalid_id_msg⟩, s) ∧
    read_task_v1 0 s = (.error ⟨400, invalid_id_msg⟩, s) ∧
    read_task_v1 (-5) s = (.error ⟨400, invalid_id_msg⟩, s) := by
  unfold read_task_v1 modify_task_v1 remove_task_v1
  simp [h]

/-- C6 witness: GetTask(0), UpdateTask(0), DeleteTask(0) on the initial store
all yield the 400 error. -/
theorem C6_nonpos_id_invalid_witness :
    read_task_v1 0 tasks_data = (.error ⟨400, invalid_id_msg⟩, tasks_data) ∧
    modify_task_v1 0 ⟨none, none, none⟩ tasks_data =
      (.error ⟨400, invalid_id_msg⟩, tasks_data) ∧
    remove_task_v1 0 tasks_data = (.error ⟨400, invalid_id_msg⟩, tasks_data) ∧
    read_task_v1 0 tasks_data = (.error ⟨400, invalid_id_msg⟩, tasks_data) ∧
    read_task_v1 (-5) tasks_data = (.error ⟨400, invalid_id_msg⟩, tasks_data) :=
  C6_nonpos_id_invalid tasks_data 0 ⟨none, none, none⟩ (by decide)

/-! ### C3: create assigns Id = size + 1 and appends -/

/-- C3 (confirmed): for every store and valid create input (non-empty Title),
CreateTask appends a record with Id = current size + 1, returns that record,
and the returned Id equals the store size immediately after insertion. -/
theorem C3_create_assigns (s : Store) (nt : NewTask) (h : 1 ≤ nt.Title.length) :
    (add_task_v1 nt s).2 =
      s ++ [⟨(s.length : Int) + 1, nt.Title, nt.Description, nt.done⟩] ∧
    (add_task_v1 nt s).1 =
      .createResp "Success" ⟨(s.length : Int) + 1, nt.Title, nt.Description, nt.done⟩ ∧
    ((s.length : Int) + 1) = ((add_task_v1 nt s).2.length : Int) := by
  refine ⟨rfl, rfl, ?_⟩
  simp [add_task_v1]

/-- C3 witness: creating a one-field task on the initial store appends a
record with Id 2 = new size. -/
theorem C3_create_assigns_witness :
    (add_task_v1 ⟨"Write spec", none, false⟩ tasks_data).2 =
      tasks_data ++ [⟨(tasks_data.length : Int) + 1, "Write spec", none, false⟩] ∧
    (add_task_v1 ⟨"Write spec", none, false⟩ tasks_data).1 =
      .createResp "Success" ⟨(tasks_data.length : Int) + 1, "Write spec", none, false⟩ ∧
    ((tasks_data.length : Int) + 1) =
      ((add_task_v1 ⟨"Write spec", none, false⟩ tasks_data).2.length : Int) :=
  C3_create_assigns tasks_data ⟨"Write spec", none, false⟩ (by decide)

/-! ### C4: get after create returns the supplied fields -/

theorem find_append_of_all_neg (p : Task → Bool) (s l : Store)
    (h : ∀ t ∈ s, p t = false) : (s ++ l).find? p = l.find? p := by
  induction s with
  | nil => rfl
  | cons x xs ih =>
      have hx := h x (List.mem_cons_self x xs)
      have ih' := ih (fun t ht => h t (List.mem_cons_of_mem x ht))
      rw [List.cons_append, List.find?_cons_of_neg _ (by simp [hx])]
      exact ih'

/-- The store reached by create then delete-the-first-task: one task left,
carrying Id 2, while the store size is 1. -/
def shrunk_store : Store :=
  step (step tasks_data (.create (some "A") none none)) (.del 1)

/-- C4 (counterexample): on the reachable store holding only a task with
Id 2, CreateTask("B") returns Id 2, but GetTask(2) then returns the OLD task
(Title "A"), not the record that was supplied: the linear scan finds the
earlier duplicate first. -/
theorem C4_counterexample :
    Reachable shrunk_store ∧
    (post_task_v1 (some "B") none none shrunk_store).1 =
      .ok (.createResp "Success" ⟨2, "B", none, false⟩) ∧
    (read_task_v1 2 (post_task_v1 (some "B") none none shrunk_store).2).1 =
      .ok (.getResp "Success" ⟨2, "A", none, false⟩) := by
  refine ⟨?_, rfl, rfl⟩
  show Reachable (step (step tasks_data _) _)
  exact .next _ _ (.next _ _ .init)

/-- C4 (amended): provided no task already in the store carries the Id about
to be assigned (size + 1), GetTask performed immediately after a valid
CreateTask returns exactly the supplied Title, Description and done, with
defaults (Description = none, done = false) for omitted optional fields. -/
theorem C4_create_then_get (s : Store) (title : String) (descr : Option String)
    (d : Option Bool) (ht : 1 ≤ title.length)
    (hfresh : ∀ t ∈ s, t.Id ≠ (s.length : Int) + 1) :
    (post_task_v1 (some title) descr d s).1 =
      .ok (.createResp "Success" ⟨(s.length : Int) + 1, title, descr, d.getD false⟩) ∧
    (read_task_v1 ((s.length : Int) + 1) (post_task_v1 (some title) descr d s).2).1 =
      .ok (.getResp "Success" ⟨(s.length : Int) + 1, title, descr, d.getD false⟩) := by
  have hlen : ¬ title.length < 1 := by omega
  have hpost : post_task_v1 (some title) descr d s =
      (.ok (.createResp "Success" ⟨(s.length : Int) + 1, title, descr, d.getD false⟩),
       s ++ [⟨(s.length : Int) + 1, title, descr, d.getD false⟩]) := by
    simp [post_task_v1, parse_new_task, hlen, add_task_v1]
  refine ⟨by rw [hpost], ?_⟩
  rw [hpost]
  have h0 : ¬ ((s.length : Int) + 1 ≤ 0) := by
    have : (0 : Int) ≤ (s.length : Int) := Int.ofNat_nonneg s.length
    omega
  have hfind : get_task_by_id ((s.length : Int) + 1)
      (s ++ [⟨(s.length : Int) + 1, title, descr, d.getD false⟩]) =
      some ⟨(s.length : Int) + 1, title, descr, d.getD false⟩ := by
    unfold get_task_by_id
    rw [find_append_of_all_neg _ s _ (by
      intro t htm
      have := hfresh t htm
      simpa using this)]
    simp
  simp [read_task_v1, h0, hfind]

/-- C4 witness: on the initial store (which has no task with Id 2), creating
a task with Title "Write spec" and everything else omitted, then getting
Id 2, returns Title "Write spec", Description none, done false. -/
theorem C4_create_then_get_witness :
    (post_task_v1 (some "Write spec") none none tasks_data).1 =
      .ok (.createResp "Success"
        ⟨(tasks_data.length : Int) + 1, "Write spec", none, Option.getD none false⟩) ∧
    (read_task_v1 ((tasks_data.length : Int) + 1)
        (post_task_v1 (some "Write spec") none none tasks_data).2).1 =
      .ok (.getResp "Success"
        ⟨(tasks_data.length : Int) + 1, "Write spec", none, Option.getD none false⟩) :=
  C4_create_then_get tasks_data "Write spec" none none (by decide) (by decide)

/-! ### C5: partial-update semantics -/

theorem apply_update_noop (t : Task) : apply_update ⟨none, none, none⟩ t = t := rfl

theorem update_first_noop (task_id : Int) (s : Store) :
    update_first task_id ⟨none, none, none⟩ s = s := by
  induction s with
  | nil => rfl
  | cons x xs ih =>
      by_cases hx : x.Id == task_id <;>
        simp [update_first, hx, ih, apply_update_noop]

theorem get_update_first (s : Store) (task_id : Int) (u : UpdateTask) (t : Task)
    (hf : get_task_by_id task_id s = some t) :
    get_task_by_id task_id (update_first task_id u s) = some (apply_update u t) := by
  unfold get_task_by_id at hf ⊢
  induction s with
  | nil => simp at hf
  | cons x xs ih =>
      cases hxb : (x.Id == task_id) with
      | true =>
          rw [List.find?_cons_of_pos (p := fun (y : Task) => y.Id == task_id) _ hxb] at hf
          have hxt : x = t := Option.some.inj hf
          subst hxt
          have hid : ((apply_update u x).Id == task_id) = true := by
            rw [apply_update_Id]; exact hxb
          have hupd : update_first task_id u (x :: xs) = apply_update u x :: xs := by
            simp [update_first, hxb]
          rw [hupd, List.find?_cons_of_pos (p := fun (y : Task) => y.Id == task_id) _ hid]
      | false =>
          rw [List.find?_cons_of_neg (p := fun (y : Task) => y.Id == task_id) _
            (by simp [hxb])] at hf
          have hupd : update_first task_id u (x :: xs) =
              x :: update_first task_id u xs := by
            simp [update_first, hxb]
          rw [hupd, List.find?_cons_of_neg (p := fun (y : Task) => y.Id == task_id) _
            (by simp [hxb])]
          exact ih hf

/-- C5 (confirmed): when the store holds a task t with the given positive id,
UpdateTask succeeds and replaces the found task by `apply_update u t`, which
takes each supplied field and keeps each omitted field; an all-absent body is
a no-op that still returns success; a body with only done=true keeps Title
and Description and sets done. -/
theorem C5_partial_update (s : Store) (task_id : Int) (u : UpdateTask) (t : Task)
    (hpos : 0 < task_id) (hf : get_task_by_id task_id s = some t) :
    (modify_task_v1 task_id u s).1 =
      .ok (.msgResp "Success" "Task Updated Successfully") ∧
    get_task_by_id task_id (modify_task_v1 task_id u s).2 =
      some (apply_update u t) ∧
    (apply_update u t).Id = t.Id ∧
    (apply_update u t).Title = (match u.Title with | some ttl => ttl | none => t.Title) ∧
    (apply_update u t).Description =
      (match u.Description with | some dd => some dd | none => t.Description) ∧
    (apply_update u t).done = (match u.done with | some b => b | none => t.done) ∧
    modify_task_v1 task_id ⟨none, none, none⟩ s =
      (.ok (.msgResp "Success" "Task Updated Successfully"), s) ∧
    apply_update ⟨none, none, some true⟩ t = ⟨t.Id, t.Title, t.Description, true⟩ := by
  have h0 : ¬ task_id ≤ 0 := by omega
  refine ⟨?_, ?_, rfl, rfl, rfl, rfl, ?_, rfl⟩
  · simp [modify_task_v1, h0, hf]
  · have h2 : (modify_task_v1 task_id u s).2 = update_first task_id u s := by
      simp [modify_task_v1, h0, hf]
    rw [h2]
    exact get_update_first s task_id u t hf
  · simp [modify_task_v1, h0, hf, update_first_noop]

/-- C5 witness: updating task 1 of the initial store with only done=true
succeeds and leaves the stored Title and Description unchanged while setting
done. -/
theorem C5_partial_update_witness :
    (modify_task_v1 1 ⟨none, none, some true⟩ tasks_data).1 =
      .ok (.msgResp "Success" "Task Updated Successfully") ∧
    get_task_by_id 1 (modify_task_v1 1 ⟨none, none, some true⟩ tasks_data).2 =
      some (apply_update ⟨none, none, some true⟩
        ⟨1, "Complete Lab Activity", some "Finish Lab Activity 2", false⟩) ∧
    (apply_update ⟨none, none, some true⟩
        ⟨1, "Complete Lab Activity", some "Finish Lab Activity 2", false⟩).Id = 1 ∧
    (apply_update ⟨none, none, some true⟩
        ⟨1, "Complete Lab Activity", some "Finish Lab Activity 2", false⟩).Title =
      "Complete Lab Activity" ∧
    (apply_update ⟨none, none, some true⟩
        ⟨1, "Complete Lab Activity", some "Finish Lab Activity 2", false⟩).Description =
      some "Finish Lab Activity 2" ∧
    (apply_update ⟨none, none, some true⟩
        ⟨1, "Complete Lab Activity", some "Finish Lab Activity 2", false⟩).done = true ∧
    modify_task_v1 1 ⟨none, none, none⟩ tasks_data =
      (.ok (.msgResp "Success" "Task Updated Successfully"), tasks_data) ∧
    apply_update ⟨none, none, some true⟩
        ⟨1, "Complete Lab Activity", some "Finish Lab Activity 2", false⟩ =
      ⟨1, "Complete Lab Activity", some "Finish Lab Activity 2", true⟩ :=
  C5_partial_update tasks_data 1 ⟨none, none, some true⟩
    ⟨1, "Complete Lab Activity", some "Finish Lab Activity 2", false⟩
    (by decide) (by decide)

/-! ### C2: delete then get -/

theorem find_py_remove_none (s : Store) (task_id : Int) (t : Task)
    (hnd : (s.map Task.Id).Nodup)
    (hf : get_task_by_id task_id s = some t) :
    get_task_by_id task_id (py_remove t s) = none := by
  unfold get_task_by_id at hf ⊢
  induction s with
  | nil => simp at hf
  | cons x xs ih =>
      rw [List.map_cons, List.nodup_cons] at hnd
      cases hxb : (x.Id == task_id) with
      | true =>
          rw [List.find?_cons_of_pos (p := fun (y : Task) => y.Id == task_id) _ hxb] at hf
          have hxt : x = t := Option.some.inj hf
          subst hxt
          have hxid : x.Id = task_id := by simpa using hxb
          have hrem : py_remove x (x :: xs) = xs := by simp [py_remove]
          rw [hrem, List.find?_eq_none]
          intro y hy hpy
          have hyid : y.Id = task_id := by simpa using hpy
          exact hnd.1 (List.mem_map.mpr ⟨y, hy, by rw [hyid, hxid]⟩)
      | false =>
          rw [List.find?_cons_of_neg (p := fun (y : Task) => y.Id == task_id) _
            (by simp [hxb])] at hf
          have hxt : x ≠ t := by
            intro hcontra
            have hpt : (t.Id == task_id) = true :=
              List.find?_some (p := fun (y : Task) => y.Id == task_id) hf
            rw [← hcontra, hxb] at hpt
            exact absurd hpt (by decide)
          have hrem : py_remove t (x :: xs) = x :: py_remove t xs := by
            simp [py_remove, hxt]
          rw [hrem, List.find?_cons_of_neg (p := fun (y : Task) => y.Id == task_id) _
            (by simp [hxb])]
          exact ih hnd.2 hf

/-- C2 (counterexample): in the reachable store holding two tasks both with
Id 2, DeleteTask(2) succeeds (removing the first match) but GetTask(2)
immediately afterwards still finds the second duplicate and returns 200, not
NotFound. -/
theorem C2_counterexample :
    Reachable dup_store ∧
    is_ok (remove_task_v1 2 dup_store).1 = true ∧
    (read_task_v1 2 (remove_task_v1 2 dup_store).2).1 =
      .ok (.getResp "Success" ⟨2, "B", none, false⟩) := by
  refine ⟨?_, rfl, rfl⟩
  show Reachable (step (step (step tasks_data _) _) _)
  exact .next _ _ (.next _ _ (.next _ _ .init))

/-- C2 (amended): provided the store's Ids are pairwise distinct, a
successful DeleteTask(id) immediately followed by GetTask(id) yields
NotFound (404). -/
theorem C2_delete_then_get (s : Store) (task_id : Int)
    (hnd : (s.map Task.Id).Nodup)
    (hok : is_ok (remove_task_v1 task_id s).1 = true) :
    (read_task_v1 task_id (remove_task_v1 task_id s).2).1 =
      .error ⟨404, not_found_msg task_id⟩ := by
  by_cases h0 : task_id ≤ 0
  · simp [remove_task_v1, h0, is_ok] at hok
  · cases hf : get_task_by_id task_id s with
    | none => simp [remove_task_v1, h0, hf, is_ok] at hok
    | some t =>
        have h2 : (remove_task_v1 task_id s).2 = py_remove t s := by
          simp [remove_task_v1, h0, hf]
        rw [h2]
        have hnone := find_py_remove_none s task_id t hnd hf
        simp [read_task_v1, h0, hnone]

/-- C2 witness: deleting task 1 from the initial store (whose Ids are
distinct) and then getting id 1 yields the 404 error. -/
theorem C2_delete_then_get_witness :
    (read_task_v1 1 (remove_task_v1 1 tasks_data).2).1 =
      .error ⟨404, not_found_msg 1⟩ :=
  C2_delete_then_get tasks_data 1 (by decide) (by decide)

/-! ### C7, C8, C10: the v2 auth gate -/

/-- C7 (confirmed): with the correct API key header (the supplied value
equals the configured one), every v2 operation returns the identical response
and leaves the identical store as the corresponding v1 operation. -/
theorem C7_v2_equals_v1 (s : Store) (api_key cfg : Option String)
    (hkey : api_key = cfg) (task_id : Int) (u : UpdateTask)
    (title descr : Option String) (d : Option Bool) :
    read_task_v2 api_key cfg task_id s = read_task_v1 task_id s ∧
    post_task_v2 api_key cfg title descr d s = post_task_v1 title descr d s ∧
    modify_task_v2 api_key cfg task_id u s = modify_task_v1 task_id u s ∧
    remove_task_v2 api_key cfg task_id s = remove_task_v1 task_id s := by
  subst hkey
  simp [read_task_v2, post_task_v2, modify_task_v2, remove_task_v2,
    validate_api_key]

/-- C7 witness: with header value "secret" matching the configured "secret",
each v2 call on the initial store coincides with its v1 counterpart. -/
theorem C7_v2_equals_v1_witness :
    read_task_v2 (some "secret") (some "secret") 1 tasks_data =
      read_task_v1 1 tasks_data ∧
    post_task_v2 (some "secret") (some "secret") (some "Write spec") none none
        tasks_data =
      post_task_v1 (some "Write spec") none none tasks_data ∧
    modify_task_v2 (some "secret") (some "secret") 1 ⟨none, none, some true⟩
        tasks_data =
      modify_task_v1 1 ⟨none, none, some true⟩ tasks_data ∧
    remove_task_v2 (some "secret") (some "secret") 1 tasks_data =
      remove_task_v1 1 tasks_data :=
  C7_v2_equals_v1 tasks_data (some "secret") (some "secret") rfl 1
    ⟨none, none, some true⟩ (some "Write spec") none none

/-- C8 (counterexample): when the configured secret is unset (`none`) and the
header is missing (`none`), a v2 GET does NOT fail with 401 — it succeeds
and returns the v1 result, because `None != None` is false in the key check.
So "missing header always yields Unauthenticated" is false. -/
theorem C8_counterexample :
    read_task_v2 none none 1 tasks_data =
      (.ok (.getResp "Success"
        ⟨1, "Complete Lab Activity", some "Finish Lab Activity 2", false⟩),
       tasks_data) := rfl

/-- C8 (amended): whenever the supplied header value (none when the header is
missing) differs from the configured secret value, every v2 operation fails
with Unauthenticated (401) and the store is unchanged, for every input — so
the gate is decided before the wrapped v1 logic runs. -/
theorem C8_bad_key_unauthorized (s : Store) (api_key cfg : Option String)
    (hkey : api_key ≠ cfg) (task_id : Int) (u : UpdateTask)
    (title descr : Option String) (d : Option Bool) :
    read_task_v2 api_key cfg task_id s = (.error ⟨401, "Unauthorized"⟩, s) ∧
    post_task_v2 api_key cfg title descr d s = (.error ⟨401, "Unauthorized"⟩, s) ∧
    modify_task_v2 api_key cfg task_id u s = (.error ⟨401, "Unauthorized"⟩, s) ∧
    remove_task_v2 api_key cfg task_id s = (.error ⟨401, "Unauthorized"⟩, s) := by
  simp [read_task_v2, post_task_v2, modify_task_v2, remove_task_v2,
    validate_api_key, hkey]

/-- C8 witness: with configured secret "secret" and a wrong header value,
all four v2 operations on the initial store yield 401 and leave the store
as it was. -/
theorem C8_bad_key_unauthorized_witness :
    read_task_v2 (some "wrong") (some "secret") 1 tasks_data =
      (.error ⟨401, "Unauthorized"⟩, tasks_data) ∧
    post_task_v2 (some "wrong") (some "secret") (some "Write spec") none none
        tasks_data = (.error ⟨401, "Unauthorized"⟩, tasks_data) ∧
    modify_task_v2 (some "wrong") (some "secret") 1 ⟨none, none, some true⟩
        tasks_data = (.error ⟨401, "Unauthorized"⟩, tasks_data) ∧
    remove_task_v2 (some "wrong") (some "secret") 1 tasks_data =
      (.error ⟨401, "Unauthorized"⟩, tasks_data) :=
  C8_bad_key_unauthorized tasks_data (some "wrong") (some "secret")
    (by decide) 1 ⟨none, none, some true⟩ (some "Write spec") none none

/-- C10 (confirmed): with the secret unset and the header absent the key
check passes and the wrapped v1 operation executes; and in general
`validate_api_key` raises 401 exactly when the supplied header value differs
from the configured value. -/
theorem C10_fail_open (api_key cfg : Option String) (s : Store) (task_id : Int) :
    validate_api_key none none = .ok () ∧
    read_task_v2 none none task_id s = read_task_v1 task_id s ∧
    (validate_api_key api_key cfg = .error ⟨401, "Unauthorized"⟩ ↔ api_key ≠ cfg) := by
  refine ⟨rfl, rfl, ?_⟩
  unfold validate_api_key
  by_cases h : api_key = cfg
  · simp [h]
  · simp [h]

/-! ### C9: failed operations never mutate the store -/

/-- C9 (confirmed): for every operation, v1 or v2, and every store, whenever
the operation fails (400, 404, 422 or 401) the store it returns is exactly
the store it was given: errors are terminal with no partial mutation. -/
theorem C9_error_no_mutation (s : Store) (task_id : Int) (u : UpdateTask)
    (title descr : Option String) (d : Option Bool) (api_key cfg : Option String) :
    (∀ e, (read_task_v1 task_id s).1 = .error e → (read_task_v1 task_id s).2 = s) ∧
    (∀ e, (post_task_v1 title descr d s).1 = .error e →
      (post_task_v1 title descr d s).2 = s) ∧
    (∀ e, (modify_task_v1 task_id u s).1 = .error e →
      (modify_task_v1 task_id u s).2 = s) ∧
    (∀ e, (remove_task_v1 task_id s).1 = .error e →
      (remove_task_v1 task_id s).2 = s) ∧
    (∀ e, (read_task_v2 api_key cfg task_id s).1 = .error e →
      (read_task_v2 api_key cfg task_id s).2 = s) ∧
    (∀ e, (post_task_v2 api_key cfg title descr d s).1 = .error e →
      (post_task_v2 api_key cfg title descr d s).2 = s) ∧
    (∀ e, (modify_task_v2 api_key cfg task_id u s).1 = .error e →
      (modify_task_v2 api_key cfg task_id u s).2 = s) ∧
    (∀ e, (remove_task_v2 api_key cfg task_id s).1 = .error e →
      (remove_task_v2 api_key cfg task_id s).2 = s) := by
  have hread : ∀ e, (read_task_v1 task_id s).1 = .error e →
      (read_task_v1 task_id s).2 = s := by
    intro e _
    unfold read_task_v1
    by_cases h0 : task_id ≤ 0
    · simp [h0]
    · cases hf : get_task_by_id task_id s <;> simp [h0, hf]
  have hpost : ∀ e, (post_task_v1 title descr d s).1 = .error e →
      (post_task_v1 title descr d s).2 = s := by
    intro e he
    unfold post_task_v1 at he ⊢
    cases hp : parse_new_task title descr d with
    | error e2 => rfl
    | ok nt => rw [hp] at he; exact absurd he (by simp [add_task_v1])
  have hmod : ∀ e, (modify_task_v1 task_id u s).1 = .error e →
      (modify_task_v1 task_id u s).2 = s := by
    intro e he
    unfold modify_task_v1 at he ⊢
    by_cases h0 : task_id ≤ 0
    · simp [h0]
    · cases hf : get_task_by_id task_id s with
      | none => simp [h0, hf]
      | some t => rw [if_neg h0, hf] at he; exact absurd he (by simp)
  have hrem : ∀ e, (remove_task_v1 task_id s).1 = .error e →
      (remove_task_v1 task_id s).2 = s := by
    intro e he
    unfold remove_task_v1 at he ⊢
    by_cases h0 : task_id ≤ 0
    · simp [h0]
    · cases hf : get_task_by_id task_id s with
      | none => simp [h0, hf]
      | some t => rw [if_neg h0, hf] at he; exact absurd he (by simp)
  refine ⟨hread, hpost, hmod, hrem, ?_, ?_, ?_, ?_⟩
  · intro e he
    unfold read_task_v2 at he ⊢
    cases hv : validate_api_key api_key cfg with
    | error e2 => rfl
    | ok w => rw [hv] at he; exact hread e he
  · intro e he
    unfold post_task_v2 at he ⊢
    cases hv : validate_api_key api_key cfg with
    | error e2 => rfl
    | ok w => rw [hv] at he; exact hpost e he
  · intro e he
    unfold modify_task_v2 at he ⊢
    cases hv : validate_api_key api_key cfg with
    | error e2 => rfl
    | ok w => rw [hv] at he; exact hmod e he
  · intro e he
    unfold remove_task_v2 at he ⊢
    cases hv : validate_api_key api_key cfg with
    | error e2 => rfl
    | ok w => rw [hv] at he; exact hrem e he

/-- C9 witness: a failing delete (id 5 absent) and a failing update (id 0)
on the initial store leave it unchanged. -/
theorem C9_error_no_mutation_witness :
    (remove_task_v1 5 tasks_data).2 = tasks_data ∧
    (modify_task_v1 0 ⟨none, none, none⟩ tasks_data).2 = tasks_data :=
  ⟨(C9_error_no_mutation tasks_data 5 ⟨none, none, none⟩ none none none
      none none).2.2.2.1 ⟨404, not_found_msg 5⟩ rfl,
   (C9_error_no_mutation tasks_data 0 ⟨none, none, none⟩ none none none
      none none).2.2.1 ⟨400, invalid_id_msg⟩ rfl⟩

end BellGlen
